import Mathlib

/-!
Shallow embedding of the simulation core of `giu_pong_game.py`
(classes `Ball`, `Paddle`, `PongAI`, `PongGame`).

Positions, velocities and the configuration constants are modelled as
rationals (`ℚ`); Python integer floor-divisions in the source
(`800 // 2`, `600 // 2`, `(600 - 90) // 2`) all divide evenly, so plain
`ℚ` division coincides with them.  The pygame-level randomness
(`random.choice`, `random.uniform`, `random.random`) is threaded through
explicitly as parameters: each sign drawn by `random.choice([-1, 1])`
becomes a `ℚ` argument constrained to `1` or `-1`, the AI error sample
becomes a `ℚ` argument, and the comparison `random.random() > difficulty`
becomes a `Bool` argument.
-/

/-- `GameConfig.WINDOW_SIZE[0]` -/
def WINDOW_W : ℚ := 800

/-- `GameConfig.WINDOW_SIZE[1]` -/
def WINDOW_H : ℚ := 600

/-- `GameConfig.PADDLE_WIDTH` -/
def PADDLE_WIDTH : ℚ := 15

/-- `GameConfig.PADDLE_HEIGHT` -/
def PADDLE_HEIGHT : ℚ := 90

/-- `GameConfig.BALL_SIZE` -/
def BALL_SIZE : ℚ := 15

/-- `GameConfig.PADDLE_SPEED` -/
def PADDLE_SPEED : ℚ := 7

/-- `GameConfig.BALL_SPEED` -/
def BALL_SPEED : ℚ := 5

/-- `GameConfig.BALL_MAX_SPEED` -/
def BALL_MAX_SPEED : ℚ := 15

/-- `GameConfig.SPEED_INCREMENT` -/
def SPEED_INCREMENT : ℚ := 0.2

/-- `PongAI.reaction_delay`, set to 4 in `PongAI.__init__` and never changed. -/
def reaction_delay : ℕ := 4

/-- `PongAI.movement_speed_factor`, set to 0.7 in `PongAI.__init__` and never
changed. -/
def movement_speed_factor : ℚ := 0.7

/-- The `Direction` enum. -/
inductive Direction where
  | UP
  | DOWN
deriving DecidableEq, Repr

/-- State of the `Ball` class: position and velocity. -/
structure Ball where
  x : ℚ
  y : ℚ
  speed_x : ℚ
  speed_y : ℚ
deriving DecidableEq, Repr

/-- `Ball.reset`: center the ball and draw each velocity sign.  The two
`random.choice([-1, 1])` draws are the explicit arguments `sx`, `sy`. -/
def Ball.reset (sx sy : ℚ) : Ball :=
  { x := WINDOW_W / 2
    y := WINDOW_H / 2
    speed_x := BALL_SPEED * sx
    speed_y := BALL_SPEED * sy }

/-- `Ball.move`: advance by the velocity, then reflect the vertical
velocity off the top/bottom walls. -/
def Ball.move (b : Ball) : Ball :=
  let x := b.x + b.speed_x
  let y := b.y + b.speed_y
  { x := x
    y := y
    speed_x := b.speed_x
    speed_y := if y ≤ 0 ∨ y ≥ WINDOW_H - BALL_SIZE then -b.speed_y else b.speed_y }

/-- `Ball.increase_speed`: multiply each velocity component by
`1 + SPEED_INCREMENT`, independently per axis, only when the new magnitude
stays within `BALL_MAX_SPEED`. -/
def Ball.increase_speed (b : Ball) : Ball :=
  let new_speed_x := b.speed_x * (1 + SPEED_INCREMENT)
  let new_speed_y := b.speed_y * (1 + SPEED_INCREMENT)
  { b with
    speed_x := if |new_speed_x| ≤ BALL_MAX_SPEED then new_speed_x else b.speed_x
    speed_y := if |new_speed_y| ≤ BALL_MAX_SPEED then new_speed_y else b.speed_y }

/-- State of the `Paddle` class. -/
structure Paddle where
  is_left : Bool
  x : ℚ
  y : ℚ
deriving DecidableEq, Repr

/-- `Paddle.reset`: vertical centering, and the side-fixed x offset. -/
def Paddle.reset (p : Paddle) : Paddle :=
  { p with
    y := (WINDOW_H - PADDLE_HEIGHT) / 2
    x := if p.is_left then 50 else WINDOW_W - 50 - PADDLE_WIDTH }

/-- `Paddle.move`: one clamped step up or down. -/
def Paddle.move (p : Paddle) (direction : Direction) : Paddle :=
  match direction with
  | Direction.UP => { p with y := max 0 (p.y - PADDLE_SPEED) }
  | Direction.DOWN => { p with y := min (WINDOW_H - PADDLE_HEIGHT) (p.y + PADDLE_SPEED) }

/-- `Paddle.check_collision`: axis-aligned bounding-box overlap test. -/
def Paddle.check_collision (p : Paddle) (ball : Ball) : Bool :=
  decide (p.x < ball.x + BALL_SIZE) && decide (p.x + PADDLE_WIDTH > ball.x) &&
  decide (p.y < ball.y + BALL_SIZE) && decide (p.y + PADDLE_HEIGHT > ball.y)

/-- State of the `PongAI` class.  `reaction_delay` and
`movement_speed_factor` are constant attributes and are modelled as the
top-level constants of the same names. -/
structure PongAI where
  difficulty : ℚ
  frame_counter : ℕ
  target_y : ℚ
deriving DecidableEq, Repr

/-- The `while` loop of `PongAI.predict_ball_position` (source lines
190–194): fold a projected vertical position back into
`[0, WINDOW_H]` by repeated mirror reflection off the two walls. -/
def foldY (fy : ℚ) : ℚ :=
  if fy < 0 ∨ fy > WINDOW_H then
    let fy1 := if fy < 0 then -fy else fy
    let fy2 := if fy1 > WINDOW_H then 2 * WINDOW_H - fy1 else fy1
    foldY fy2
  else fy
termination_by 2 * (Int.ceil |fy|).toNat + (if fy < 0 then 1 else 0)
decreasing_by
  simp only [WINDOW_H, gt_iff_lt] at *
  rename_i hg
  split_ifs with h1 h2 h3 h4 h5 h6
  · -- fy < -1200: one reflection lands at 1200 + fy < 0
    have e1 : |2 * 600 - -fy| = |fy| - 1200 := by
      rw [abs_of_neg h3, abs_of_neg h1]; ring
    have c1 : ⌈(|fy| - 1200 : ℚ)⌉ = ⌈|fy|⌉ - 1200 := by
      have e2 : (|fy| - 1200 : ℚ) = |fy| - ((1200 : ℤ) : ℚ) := by norm_num
      rw [e2, Int.ceil_sub_int]
    have c2 : (600 : ℤ) < ⌈|fy|⌉ := by
      rw [Int.lt_ceil, abs_of_neg h1]; push_cast; linarith
    rw [e1, c1]; omega
  · -- -1200 ≤ fy < -600: reflection lands inside [0, 600)
    have e1 : |2 * 600 - -fy| = 2 * 600 - -fy := abs_of_nonneg (by linarith)
    have c1 : ⌈(2 * 600 - -fy : ℚ)⌉ ≤ 600 := by
      rw [Int.ceil_le]; push_cast; linarith
    have c2 : (600 : ℤ) < ⌈|fy|⌉ := by
      rw [Int.lt_ceil, abs_of_neg h1]; push_cast; linarith
    rw [e1]; omega
  · exact absurd h4 (not_lt.mpr (by linarith))
  · -- -600 ≤ fy < 0: single mirror, measure parity drops
    rw [abs_neg]; omega
  · -- fy > 1200: one reflection lands at 1200 - fy < 0
    have e1 : |2 * 600 - fy| = |fy| - 1200 := by
      rw [abs_of_neg h6, abs_of_nonneg (le_of_not_lt h1)]; ring
    have c1 : ⌈(|fy| - 1200 : ℚ)⌉ = ⌈|fy|⌉ - 1200 := by
      have e2 : (|fy| - 1200 : ℚ) = |fy| - ((1200 : ℤ) : ℚ) := by norm_num
      rw [e2, Int.ceil_sub_int]
    have c2 : (600 : ℤ) < ⌈|fy|⌉ := by
      rw [Int.lt_ceil, abs_of_nonneg (le_of_not_lt h1)]; push_cast; linarith
    rw [e1, c1]; omega
  · -- 600 < fy ≤ 1200: reflection lands inside [0, 600]
    have e1 : |2 * 600 - fy| = 2 * 600 - fy := abs_of_nonneg (by linarith)
    have c1 : ⌈(2 * 600 - fy : ℚ)⌉ ≤ 600 := by
      rw [Int.ceil_le]; push_cast; linarith
    have c2 : (600 : ℤ) < ⌈|fy|⌉ := by
      rw [Int.lt_ceil, abs_of_nonneg (le_of_not_lt h1)]; push_cast; linarith
    rw [e1]; omega
  · rcases hg with hg1 | hg1
    · exact absurd hg1 h1
    · exact absurd hg1 h5

/-- `PongAI.predict_ball_position`.  `err` stands for the draw
`random.uniform(-max_error, max_error)` and `dbl` for the comparison
`random.random() > self.difficulty`. -/
def PongAI.predict_ball_position (ai : PongAI) (ball : Ball) (paddle : Paddle)
    (err : ℚ) (dbl : Bool) : ℚ :=
  if (paddle.is_left = true ∧ ball.speed_x > 0) ∨
     (paddle.is_left = false ∧ ball.speed_x < 0) then
    WINDOW_H / 2 - PADDLE_HEIGHT / 2
  else
    let time_to_intercept := |(paddle.x - ball.x) / ball.speed_x|
    let future_y := foldY (ball.y + ball.speed_y * time_to_intercept)
    let error := if dbl then err * 2 else err
    min (max (future_y - PADDLE_HEIGHT / 2 + error) 0) (WINDOW_H - PADDLE_HEIGHT)

/-- The value of `self.target_y` after the reaction-delay block at the top
of `PongAI.update`: recomputed when the incremented frame counter reaches
`reaction_delay`, otherwise the stale cached target. -/
def PongAI.target_after (ai : PongAI) (ball : Ball) (paddle : Paddle)
    (err : ℚ) (dbl : Bool) : ℚ :=
  if ai.frame_counter + 1 ≥ reaction_delay then
    ai.predict_ball_position ball paddle err dbl
  else ai.target_y

/-- `PongAI.update`: advance the frame counter (recomputing the target
every `reaction_delay` frames), then take one damped step toward the
target — a full clamped `Paddle.move` step followed by a partial undo of
`(1 - movement_speed_factor) * PADDLE_SPEED` in the opposite direction. -/
def PongAI.update (ai : PongAI) (paddle : Paddle) (ball : Ball)
    (err : ℚ) (dbl : Bool) : PongAI × Paddle :=
  let fc := ai.frame_counter + 1
  let fc2 := if fc ≥ reaction_delay then 0 else fc
  let ty := ai.target_after ball paddle err dbl
  let p2 :=
    if |paddle.y - ty| > PADDLE_SPEED then
      if paddle.y < ty then
        let p1 := paddle.move Direction.DOWN
        { p1 with y := p1.y - (1 - movement_speed_factor) * PADDLE_SPEED }
      else if paddle.y > ty then
        let p1 := paddle.move Direction.UP
        { p1 with y := p1.y + (1 - movement_speed_factor) * PADDLE_SPEED }
      else paddle
    else paddle
  ({ ai with frame_counter := fc2, target_y := ty }, p2)

/-- The game mode: `self.game_mode` is the string "single", the string
"two_players", or `None` (before any menu selection). -/
inductive GameMode where
  | single
  | two_players
  | none
deriving DecidableEq, Repr

/-- The mutable state of the `PongGame` class that the simulation tick
touches (presentation-only fields are omitted). -/
structure PongGame where
  left_paddle : Paddle
  right_paddle : Paddle
  ball : Ball
  score_left : ℕ
  score_right : ℕ
  single_victories_left : ℕ
  single_victories_right : ℕ
  multi_victories_left : ℕ
  multi_victories_right : ℕ
  game_mode : GameMode
  ai : PongAI
deriving DecidableEq, Repr

/-- The random draws consumed by one call to `PongGame.update`: the AI
error sample and double-error flag (used only in single mode when the
target is recomputed) and the two velocity signs a `Ball.reset` would
draw (used only when a point is scored below 11). -/
structure RandDraws where
  aiErr : ℚ
  aiDbl : Bool
  rsx : ℚ
  rsy : ℚ
deriving DecidableEq, Repr

/-- The AI block of `PongGame.update`: in single mode the AI moves the
right paddle, otherwise AI state and right paddle are untouched. -/
def PongGame.ai_step (g : PongGame) (b : Ball) (err : ℚ) (dbl : Bool) :
    PongAI × Paddle :=
  if g.game_mode = GameMode.single then g.ai.update g.right_paddle b err dbl
  else (g.ai, g.right_paddle)

/-- The left-paddle collision block of `PongGame.update`: reposition the
ball flush to the paddle's right edge, flip the horizontal velocity,
then `increase_speed`. -/
def collide_left (lp : Paddle) (b : Ball) : Ball :=
  if lp.check_collision b then
    Ball.increase_speed { b with x := lp.x + PADDLE_WIDTH, speed_x := -b.speed_x }
  else b

/-- The right-paddle collision block of `PongGame.update` (the right
paddle may already have been moved by the AI this tick). -/
def collide_right (rp : Paddle) (b : Ball) : Ball :=
  if rp.check_collision b then
    Ball.increase_speed { b with x := rp.x - BALL_SIZE, speed_x := -b.speed_x }
  else b

/-- The ball as it stands when `PongGame.update` reaches the scoring
checks: moved, then resolved against both paddles. -/
def PongGame.ball_after_collisions (g : PongGame) (r : RandDraws) : Ball :=
  collide_right (g.ai_step g.ball.move r.aiErr r.aiDbl).2
    (collide_left g.left_paddle g.ball.move)

/-- The scoring block of `PongGame.update`, applied to the state with
ball `b`, AI state `ai1` and right paddle `rp1` already advanced.
Returns the new state and the code's boolean continue signal (`False`
means the match ended). -/
def PongGame.score_step (g : PongGame) (ai1 : PongAI) (rp1 : Paddle) (b : Ball)
    (rsx rsy : ℚ) : PongGame × Bool :=
  let g1 := { g with ball := b, right_paddle := rp1, ai := ai1 }
  if b.x ≤ 0 then
    let g2 := { g1 with score_right := g.score_right + 1 }
    if g2.score_right ≥ 11 then
      if g.game_mode = GameMode.single then
        ({ g2 with single_victories_right := g.single_victories_right + 1 }, false)
      else
        ({ g2 with multi_victories_right := g.multi_victories_right + 1 }, false)
    else
      ({ g2 with ball := Ball.reset rsx rsy }, true)
  else if b.x ≥ WINDOW_W - BALL_SIZE then
    let g2 := { g1 with score_left := g.score_left + 1 }
    if g2.score_left ≥ 11 then
      if g.game_mode = GameMode.single then
        ({ g2 with single_victories_left := g.single_victories_left + 1 }, false)
      else
        ({ g2 with multi_victories_left := g.multi_victories_left + 1 }, false)
    else
      ({ g2 with ball := Ball.reset rsx rsy }, true)
  else
    (g1, true)

/-- `PongGame.update`: one simulation tick in the source's order — move
the ball, run the AI (single mode only), resolve the left then the right
paddle collision, then run the scoring checks. -/
def PongGame.update (g : PongGame) (r : RandDraws) : PongGame × Bool :=
  g.score_step (g.ai_step g.ball.move r.aiErr r.aiDbl).1
    (g.ai_step g.ball.move r.aiErr r.aiDbl).2
    (g.ball_after_collisions r) r.rsx r.rsy

/-- `PongGame.reset_game`: zero both scores, reset both paddles and the
ball.  `rsx`, `rsy` are the velocity signs drawn inside `Ball.reset`. -/
def PongGame.reset_game (g : PongGame) (rsx rsy : ℚ) : PongGame :=
  { g with
    score_left := 0
    score_right := 0
    left_paddle := g.left_paddle.reset
    right_paddle := g.right_paddle.reset
    ball := Ball.reset rsx rsy }

/-! ## Helper lemmas -/

theorem increase_speed_abs_le (b : Ball)
    (hx : |b.speed_x| ≤ BALL_MAX_SPEED) (hy : |b.speed_y| ≤ BALL_MAX_SPEED) :
    |b.increase_speed.speed_x| ≤ BALL_MAX_SPEED ∧
    |b.increase_speed.speed_y| ≤ BALL_MAX_SPEED := by
  unfold Ball.increase_speed
  dsimp only
  constructor <;> split_ifs <;> assumption

theorem paddle_move_bounds (p : Paddle) (d : Direction)
    (h0 : 0 ≤ p.y) (h1 : p.y ≤ WINDOW_H - PADDLE_HEIGHT) :
    0 ≤ (p.move d).y ∧ (p.move d).y ≤ WINDOW_H - PADDLE_HEIGHT := by
  cases d <;>
    simp only [Paddle.move, WINDOW_H, PADDLE_HEIGHT, PADDLE_SPEED] at h0 h1 ⊢
  · exact ⟨le_max_left 0 _, max_le (by norm_num) (by linarith)⟩
  · exact ⟨le_min (by norm_num) (by linarith), min_le_left _ _⟩

/-! ## Claim theorems -/

/-- C2: starting from velocity components within `BALL_MAX_SPEED` in
magnitude, any number of `Ball.increase_speed` calls keeps both
magnitudes within `BALL_MAX_SPEED`; each call multiplies an axis by
`1 + SPEED_INCREMENT` exactly when the new magnitude stays within the
cap and leaves that axis unchanged otherwise. -/
theorem increase_speed_capped (b : Ball) (n : ℕ)
    (hx : |b.speed_x| ≤ BALL_MAX_SPEED) (hy : |b.speed_y| ≤ BALL_MAX_SPEED) :
    |(Ball.increase_speed^[n] b).speed_x| ≤ BALL_MAX_SPEED ∧
    |(Ball.increase_speed^[n] b).speed_y| ≤ BALL_MAX_SPEED ∧
    b.increase_speed.speed_x =
      (if |b.speed_x * (1 + SPEED_INCREMENT)| ≤ BALL_MAX_SPEED
       then b.speed_x * (1 + SPEED_INCREMENT) else b.speed_x) ∧
    b.increase_speed.speed_y =
      (if |b.speed_y * (1 + SPEED_INCREMENT)| ≤ BALL_MAX_SPEED
       then b.speed_y * (1 + SPEED_INCREMENT) else b.speed_y) := by
  have key : ∀ m c, |Ball.speed_x c| ≤ BALL_MAX_SPEED → |Ball.speed_y c| ≤ BALL_MAX_SPEED →
      |(Ball.increase_speed^[m] c).speed_x| ≤ BALL_MAX_SPEED ∧
      |(Ball.increase_speed^[m] c).speed_y| ≤ BALL_MAX_SPEED := by
    intro m
    induction m with
    | zero => intro c h0 h1; exact ⟨h0, h1⟩
    | succ m ih =>
      intro c h0 h1
      rw [Function.iterate_succ_apply]
      exact ih _ (increase_speed_abs_le c h0 h1).1 (increase_speed_abs_le c h0 h1).2
  exact ⟨(key n b hx hy).1, (key n b hx hy).2, rfl, rfl⟩

/-- Witness for C2: the concrete start ball with velocity `(5, 5)` is in
range and stays in range through three speed-ups. -/
theorem increase_speed_capped_witness :
    |(⟨400, 300, 5, 5⟩ : Ball).speed_x| ≤ BALL_MAX_SPEED ∧
    |(⟨400, 300, 5, 5⟩ : Ball).speed_y| ≤ BALL_MAX_SPEED ∧
    |(Ball.increase_speed^[3] (⟨400, 300, 5, 5⟩ : Ball)).speed_x| ≤ BALL_MAX_SPEED :=
  ⟨by decide, by decide,
    (increase_speed_capped ⟨400, 300, 5, 5⟩ 3 (by decide) (by decide)).1⟩

/-- C3: a paddle starting inside `[0, WINDOW_H - PADDLE_HEIGHT]` stays
inside that band under any sequence of `Paddle.move` calls; an UP move
subtracts `PADDLE_SPEED` clamped below at 0 and a DOWN move adds
`PADDLE_SPEED` clamped above at `WINDOW_H - PADDLE_HEIGHT`. -/
theorem paddle_move_in_bounds (p : Paddle) (ds : List Direction)
    (h0 : 0 ≤ p.y) (h1 : p.y ≤ WINDOW_H - PADDLE_HEIGHT) :
    0 ≤ (ds.foldl Paddle.move p).y ∧
    (ds.foldl Paddle.move p).y ≤ WINDOW_H - PADDLE_HEIGHT ∧
    (p.move Direction.UP).y = max 0 (p.y - PADDLE_SPEED) ∧
    (p.move Direction.DOWN).y = min (WINDOW_H - PADDLE_HEIGHT) (p.y + PADDLE_SPEED) := by
  have key : ∀ ds q, 0 ≤ Paddle.y q → Paddle.y q ≤ WINDOW_H - PADDLE_HEIGHT →
      0 ≤ (List.foldl Paddle.move q ds).y ∧
      (List.foldl Paddle.move q ds).y ≤ WINDOW_H - PADDLE_HEIGHT := by
    intro ds
    induction ds with
    | nil => intro q hq0 hq1; exact ⟨hq0, hq1⟩
    | cons d ds ih =>
      intro q hq0 hq1
      exact ih _ (paddle_move_bounds q d hq0 hq1).1 (paddle_move_bounds q d hq0 hq1).2
  exact ⟨(key ds p h0 h1).1, (key ds p h0 h1).2, rfl, rfl⟩

/-- Witness for C3: a centered paddle pushed down eight times in a row
stays in the band. -/
theorem paddle_move_in_bounds_witness :
    0 ≤ (⟨true, 50, 255⟩ : Paddle).y ∧
    (⟨true, 50, 255⟩ : Paddle).y ≤ WINDOW_H - PADDLE_HEIGHT ∧
    0 ≤ ((List.replicate 8 Direction.DOWN).foldl Paddle.move (⟨true, 50, 255⟩ : Paddle)).y :=
  ⟨by norm_num, by norm_num [WINDOW_H, PADDLE_HEIGHT],
    (paddle_move_in_bounds ⟨true, 50, 255⟩ (List.replicate 8 Direction.DOWN)
      (by norm_num) (by norm_num [WINDOW_H, PADDLE_HEIGHT])).1⟩

/-- C8: the mirror-reflection fold of `PongAI.predict_ball_position`
terminates on every rational input (it is a total function here, defined
by well-founded recursion on a decreasing measure) and its result always
lies in `[0, WINDOW_H]`. -/
theorem foldY_terminates_in_range (fy : ℚ) : 0 ≤ foldY fy ∧ foldY fy ≤ WINDOW_H := by
  induction fy using foldY.induct with
  | case1 fy hg fy1 fy2 ih => rw [foldY, if_pos hg]; exact ih
  | case2 fy hg =>
    rw [foldY, if_neg hg]
    push_neg at hg
    exact ⟨hg.1, hg.2⟩

/-- C10: `PongAI.update` keeps the paddle inside
`[0, WINDOW_H - PADDLE_HEIGHT]` for every starting position in that band
and every target, even though it adjusts `y` directly after the clamped
`Paddle.move` step. -/
theorem ai_update_preserves_paddle_band (ai : PongAI) (p : Paddle) (b : Ball)
    (err : ℚ) (dbl : Bool) (h0 : 0 ≤ p.y) (h1 : p.y ≤ WINDOW_H - PADDLE_HEIGHT) :
    0 ≤ (ai.update p b err dbl).2.y ∧
    (ai.update p b err dbl).2.y ≤ WINDOW_H - PADDLE_HEIGHT := by
  unfold PongAI.update
  dsimp only
  split_ifs with hA hB hC
  · -- full DOWN step, then partial undo upward
    simp only [Paddle.move, WINDOW_H, PADDLE_HEIGHT, PADDLE_SPEED,
      movement_speed_factor] at h0 h1 ⊢
    have hm1 : (7 : ℚ) ≤ min (600 - 90) (p.y + 7) := le_min (by norm_num) (by linarith)
    have hm2 : min (600 - 90 : ℚ) (p.y + 7) ≤ 600 - 90 := min_le_left _ _
    constructor <;> norm_num <;> linarith
  · -- full UP step, then partial undo downward
    simp only [Paddle.move, WINDOW_H, PADDLE_HEIGHT, PADDLE_SPEED,
      movement_speed_factor] at h0 h1 ⊢
    have hm1 : (0 : ℚ) ≤ max 0 (p.y - 7) := le_max_left _ _
    have hm2 : max (0 : ℚ) (p.y - 7) ≤ 600 - 90 - 7 := max_le (by norm_num) (by linarith)
    constructor <;> norm_num <;> linarith
  · exact ⟨h0, h1⟩
  · exact ⟨h0, h1⟩

/-- Witness for C10: a centered right paddle stays in the band after one
AI update. -/
theorem ai_update_preserves_paddle_band_witness :
    0 ≤ ((⟨1/2, 0, 100⟩ : PongAI).update ⟨false, 735, 255⟩ ⟨400, 300, 5, 5⟩ 0 false).2.y ∧
    ((⟨1/2, 0, 100⟩ : PongAI).update ⟨false, 735, 255⟩ ⟨400, 300, 5, 5⟩ 0 false).2.y
      ≤ WINDOW_H - PADDLE_HEIGHT :=
  ai_update_preserves_paddle_band ⟨1/2, 0, 100⟩ ⟨false, 735, 255⟩ ⟨400, 300, 5, 5⟩ 0 false
    (by norm_num) (by norm_num [WINDOW_H, PADDLE_HEIGHT])

/-- C7: when the gap to the (possibly just recomputed) target exceeds
`PADDLE_SPEED` and the clamp of `Paddle.move` does not fire, the AI moves
the paddle a net `movement_speed_factor * PADDLE_SPEED` toward the
target (a full step then a partial opposite adjustment); when the gap is
at most `PADDLE_SPEED` the paddle does not move. -/
theorem ai_update_damped_step (ai : PongAI) (p : Paddle) (b : Ball)
    (err : ℚ) (dbl : Bool) :
    (PADDLE_SPEED < |p.y - ai.target_after b p err dbl| →
      p.y < ai.target_after b p err dbl →
      p.y + PADDLE_SPEED ≤ WINDOW_H - PADDLE_HEIGHT →
      (ai.update p b err dbl).2.y = p.y + movement_speed_factor * PADDLE_SPEED) ∧
    (PADDLE_SPEED < |p.y - ai.target_after b p err dbl| →
      ai.target_after b p err dbl < p.y →
      0 ≤ p.y - PADDLE_SPEED →
      (ai.update p b err dbl).2.y = p.y - movement_speed_factor * PADDLE_SPEED) ∧
    (|p.y - ai.target_after b p err dbl| ≤ PADDLE_SPEED →
      (ai.update p b err dbl).2.y = p.y) := by
  unfold PongAI.update
  dsimp only
  refine ⟨?_, ?_, ?_⟩
  · intro hgap hlt hclamp
    rw [if_pos hgap, if_pos hlt]
    simp only [Paddle.move]
    rw [min_eq_right (by simpa [WINDOW_H, PADDLE_HEIGHT, PADDLE_SPEED] using hclamp)]
    simp only [movement_speed_factor, PADDLE_SPEED]
    ring
  · intro hgap hgt hclamp
    rw [if_pos hgap, if_neg (not_lt.mpr (le_of_lt hgt)), if_pos hgt]
    simp only [Paddle.move]
    rw [max_eq_right (by simpa [PADDLE_SPEED] using hclamp)]
    simp only [movement_speed_factor, PADDLE_SPEED]
    ring
  · intro hgap
    rw [if_neg (not_lt.mpr hgap)]

/-- Witness for C7: with a stale target of 100 and the paddle at 255, one
AI update moves the paddle down-to-up net 4.9 toward the target. -/
theorem ai_update_damped_step_witness :
    (⟨1/2, 0, 100⟩ : PongAI).target_after ⟨400, 300, 5, 5⟩ ⟨false, 735, 255⟩ 0 false = 100 ∧
    ((⟨1/2, 0, 100⟩ : PongAI).update ⟨false, 735, 255⟩ ⟨400, 300, 5, 5⟩ 0 false).2.y
      = (255 : ℚ) - movement_speed_factor * PADDLE_SPEED := by
  have ht : (⟨1/2, 0, 100⟩ : PongAI).target_after ⟨400, 300, 5, 5⟩ ⟨false, 735, 255⟩ 0 false
      = 100 := by
    norm_num [PongAI.target_after, reaction_delay]
  refine ⟨ht, (ai_update_damped_step ⟨1/2, 0, 100⟩ ⟨false, 735, 255⟩
    ⟨400, 300, 5, 5⟩ 0 false).2.1 ?_ ?_ ?_⟩
  · rw [ht]; norm_num [PADDLE_SPEED]
  · rw [ht]; norm_num
  · norm_num [PADDLE_SPEED]

/-- C5: `PongGame.reset_game` zeroes both scores, re-centers both paddles
and the ball (the ball at field center with both velocity magnitudes
equal to `BALL_SPEED`, signs as drawn), and leaves all four win counters
unchanged. -/
theorem reset_game_spec (g : PongGame) (rsx rsy : ℚ)
    (hl : g.left_paddle.is_left = true) (hr : g.right_paddle.is_left = false)
    (hsx : rsx = 1 ∨ rsx = -1) (hsy : rsy = 1 ∨ rsy = -1) :
    (g.reset_game rsx rsy).score_left = 0 ∧
    (g.reset_game rsx rsy).score_right = 0 ∧
    (g.reset_game rsx rsy).left_paddle.x = 50 ∧
    (g.reset_game rsx rsy).left_paddle.y = (WINDOW_H - PADDLE_HEIGHT) / 2 ∧
    (g.reset_game rsx rsy).right_paddle.x = WINDOW_W - 50 - PADDLE_WIDTH ∧
    (g.reset_game rsx rsy).right_paddle.y = (WINDOW_H - PADDLE_HEIGHT) / 2 ∧
    (g.reset_game rsx rsy).ball.x = WINDOW_W / 2 ∧
    (g.reset_game rsx rsy).ball.y = WINDOW_H / 2 ∧
    |(g.reset_game rsx rsy).ball.speed_x| = BALL_SPEED ∧
    |(g.reset_game rsx rsy).ball.speed_y| = BALL_SPEED ∧
    (g.reset_game rsx rsy).single_victories_left = g.single_victories_left ∧
    (g.reset_game rsx rsy).single_victories_right = g.single_victories_right ∧
    (g.reset_game rsx rsy).multi_victories_left = g.multi_victories_left ∧
    (g.reset_game rsx rsy).multi_victories_right = g.multi_victories_right := by
  unfold PongGame.reset_game Paddle.reset Ball.reset
  dsimp only
  rw [hl, hr]
  refine ⟨rfl, rfl, rfl, rfl, rfl, rfl, rfl, rfl, ?_, ?_, rfl, rfl, rfl, rfl⟩
  · rcases hsx with h | h <;> rw [h] <;> norm_num [BALL_SPEED]
  · rcases hsy with h | h <;> rw [h] <;> norm_num [BALL_SPEED]

/-- Witness for C5: a mid-match state is reset to the start state. -/
theorem reset_game_spec_witness :
    (PongGame.reset_game
      ⟨⟨true, 50, 100⟩, ⟨false, 735, 400⟩, ⟨10, 20, -6, 6⟩, 7, 3, 1, 2, 3, 4,
        GameMode.two_players, ⟨1/2, 0, 0⟩⟩ 1 (-1)).score_left = 0 ∧
    (PongGame.reset_game
      ⟨⟨true, 50, 100⟩, ⟨false, 735, 400⟩, ⟨10, 20, -6, 6⟩, 7, 3, 1, 2, 3, 4,
        GameMode.two_players, ⟨1/2, 0, 0⟩⟩ 1 (-1)).multi_victories_right = 4 :=
  ⟨(reset_game_spec _ 1 (-1) rfl rfl (Or.inl rfl) (Or.inr rfl)).1,
    (reset_game_spec
      ⟨⟨true, 50, 100⟩, ⟨false, 735, 400⟩, ⟨10, 20, -6, 6⟩, 7, 3, 1, 2, 3, 4,
        GameMode.two_players, ⟨1/2, 0, 0⟩⟩ 1 (-1) rfl rfl (Or.inl rfl)
      (Or.inr rfl)).2.2.2.2.2.2.2.2.2.2.2.2.2⟩

theorem increase_speed_sx_ne_zero (b : Ball) (h : b.speed_x ≠ 0) :
    b.increase_speed.speed_x ≠ 0 := by
  unfold Ball.increase_speed
  dsimp only
  split_ifs with hc
  · exact mul_ne_zero h (by norm_num [SPEED_INCREMENT])
  · exact h

theorem collide_left_sx_ne_zero (lp : Paddle) (b : Ball) (h : b.speed_x ≠ 0) :
    (collide_left lp b).speed_x ≠ 0 := by
  unfold collide_left
  split_ifs with hc
  · exact increase_speed_sx_ne_zero _ (neg_ne_zero.mpr h)
  · exact h

theorem collide_right_sx_ne_zero (rp : Paddle) (b : Ball) (h : b.speed_x ≠ 0) :
    (collide_right rp b).speed_x ≠ 0 := by
  unfold collide_right
  split_ifs with hc
  · exact increase_speed_sx_ne_zero _ (neg_ne_zero.mpr h)
  · exact h

/-- C9: the ball's horizontal velocity is never zero: `Ball.reset`
constructs it as `±BALL_SPEED`, and one full `PongGame.update` tick
(moving, collisions that negate it, `increase_speed` that scales it by a
positive factor or leaves it, and any scoring reset) preserves its
nonzeroness — so the divisor `ball.speed_x` in
`PongAI.predict_ball_position` is nonzero in every reachable state. -/
theorem update_keeps_speed_x_nonzero (g : PongGame) (r : RandDraws)
    (hz : g.ball.speed_x ≠ 0) (hsx : r.rsx = 1 ∨ r.rsx = -1) :
    (g.update r).1.ball.speed_x ≠ 0 ∧
    (∀ sx sy : ℚ, sx = 1 ∨ sx = -1 → (Ball.reset sx sy).speed_x ≠ 0) := by
  have hreset : ∀ sx sy : ℚ, sx = 1 ∨ sx = -1 → (Ball.reset sx sy).speed_x ≠ 0 := by
    intro sx sy hs
    unfold Ball.reset
    dsimp only
    rcases hs with h | h <;> rw [h] <;> norm_num [BALL_SPEED]
  refine ⟨?_, hreset⟩
  have hb : (g.ball_after_collisions r).speed_x ≠ 0 := by
    unfold PongGame.ball_after_collisions
    exact collide_right_sx_ne_zero _ _ (collide_left_sx_ne_zero _ _ hz)
  unfold PongGame.update PongGame.score_step
  dsimp only
  split_ifs <;> first | exact hb | exact hreset _ _ hsx

/-- Witness for C9: a concrete mid-rally state with `speed_x = -6` keeps
a nonzero horizontal velocity through one tick. -/
theorem update_keeps_speed_x_nonzero_witness :
    (PongGame.update
      ⟨⟨true, 50, 255⟩, ⟨false, 735, 255⟩, ⟨400, 300, -6, 6⟩, 0, 0, 0, 0, 0, 0,
        GameMode.two_players, ⟨1/2, 0, 0⟩⟩ ⟨0, false, 1, 1⟩).1.ball.speed_x ≠ 0 :=
  (update_keeps_speed_x_nonzero
    ⟨⟨true, 50, 255⟩, ⟨false, 735, 255⟩, ⟨400, 300, -6, 6⟩, 0, 0, 0, 0, 0, 0,
      GameMode.two_players, ⟨1/2, 0, 0⟩⟩ ⟨0, false, 1, 1⟩
    (by norm_num) (Or.inl rfl)).1

theorem ai_update_preserves_paddle_x (ai : PongAI) (p : Paddle) (b : Ball)
    (err : ℚ) (dbl : Bool) : (ai.update p b err dbl).2.x = p.x := by
  unfold PongAI.update
  dsimp only
  split_ifs <;> simp [Paddle.move]

theorem ai_step_right_x (g : PongGame) (b : Ball) (err : ℚ) (dbl : Bool) :
    (g.ai_step b err dbl).2.x = g.right_paddle.x := by
  unfold PongGame.ai_step
  split_ifs
  · exact ai_update_preserves_paddle_x _ _ _ _ _
  · rfl

/-- C6: when the left paddle's collision test succeeds inside
`PongGame.update` (with the paddles at their side-fixed x positions), the
resulting ball sits exactly at `left_paddle.x + PADDLE_WIDTH` and its
horizontal velocity has the opposite sign of the incoming one (the
`increase_speed` call can change the magnitude but not the sign). -/
theorem left_collision_flush_flip (g : PongGame) (r : RandDraws)
    (hlx : g.left_paddle.x = 50) (hrx : g.right_paddle.x = WINDOW_W - 50 - PADDLE_WIDTH)
    (hc : g.left_paddle.check_collision g.ball.move = true) :
    (g.update r).1.ball.x = g.left_paddle.x + PADDLE_WIDTH ∧
    (0 < g.ball.speed_x → (g.update r).1.ball.speed_x < 0) ∧
    (g.ball.speed_x < 0 → 0 < (g.update r).1.ball.speed_x) := by
  have hb2x : (collide_left g.left_paddle g.ball.move).x = g.left_paddle.x + PADDLE_WIDTH := by
    unfold collide_left
    rw [if_pos hc]
    rfl
  have hx65 : (collide_left g.left_paddle g.ball.move).x = 65 := by
    rw [hb2x, hlx]; norm_num [PADDLE_WIDTH]
  have hrc : Paddle.check_collision (g.ai_step g.ball.move r.aiErr r.aiDbl).2
      (collide_left g.left_paddle g.ball.move) = false := by
    unfold Paddle.check_collision
    have h1 : (g.ai_step g.ball.move r.aiErr r.aiDbl).2.x = WINDOW_W - 50 - PADDLE_WIDTH := by
      rw [ai_step_right_x, hrx]
    rw [h1, hx65]
    norm_num [WINDOW_W, PADDLE_WIDTH, BALL_SIZE]
  have hb3 : g.ball_after_collisions r = collide_left g.left_paddle g.ball.move := by
    unfold PongGame.ball_after_collisions collide_right
    rw [hrc]
    simp
  have hfinal : (g.update r).1.ball = collide_left g.left_paddle g.ball.move := by
    unfold PongGame.update PongGame.score_step
    rw [hb3]
    dsimp only
    rw [if_neg (by rw [hx65]; norm_num),
      if_neg (by rw [hx65]; norm_num [WINDOW_W, BALL_SIZE])]
  have hsx : (collide_left g.left_paddle g.ball.move).speed_x =
      (if |(-g.ball.speed_x) * (1 + SPEED_INCREMENT)| ≤ BALL_MAX_SPEED
       then (-g.ball.speed_x) * (1 + SPEED_INCREMENT) else -g.ball.speed_x) := by
    unfold collide_left
    rw [if_pos hc]
    rfl
  refine ⟨by rw [hfinal, hb2x], ?_, ?_⟩
  · intro hpos
    rw [hfinal, hsx]
    split_ifs with hg
    · exact mul_neg_of_neg_of_pos (neg_lt_zero.mpr hpos) (by norm_num [SPEED_INCREMENT])
    · exact neg_lt_zero.mpr hpos
  · intro hneg
    rw [hfinal, hsx]
    split_ifs with hg
    · exact mul_pos (neg_pos.mpr hneg) (by norm_num [SPEED_INCREMENT])
    · exact neg_pos.mpr hneg

/-- Witness for C6: a ball one step left of the left paddle collides and
is pushed out to `x = 65` with positive horizontal velocity. -/
theorem left_collision_flush_flip_witness :
    Paddle.check_collision ⟨true, 50, 255⟩ (Ball.move ⟨55, 300, -5, 5⟩) = true ∧
    (PongGame.update
      ⟨⟨true, 50, 255⟩, ⟨false, 735, 255⟩, ⟨55, 300, -5, 5⟩, 0, 0, 0, 0, 0, 0,
        GameMode.two_players, ⟨1/2, 0, 0⟩⟩ ⟨0, false, 1, 1⟩).1.ball.x = 50 + PADDLE_WIDTH ∧
    0 < (PongGame.update
      ⟨⟨true, 50, 255⟩, ⟨false, 735, 255⟩, ⟨55, 300, -5, 5⟩, 0, 0, 0, 0, 0, 0,
        GameMode.two_players, ⟨1/2, 0, 0⟩⟩ ⟨0, false, 1, 1⟩).1.ball.speed_x := by
  have hc : Paddle.check_collision ⟨true, 50, 255⟩ (Ball.move ⟨55, 300, -5, 5⟩) = true := by
    norm_num [Paddle.check_collision, Ball.move, BALL_SIZE, PADDLE_WIDTH, PADDLE_HEIGHT,
      WINDOW_H]
  have h := left_collision_flush_flip
    ⟨⟨true, 50, 255⟩, ⟨false, 735, 255⟩, ⟨55, 300, -5, 5⟩, 0, 0, 0, 0, 0, 0,
      GameMode.two_players, ⟨1/2, 0, 0⟩⟩ ⟨0, false, 1, 1⟩ rfl
    (by norm_num [WINDOW_W, PADDLE_WIDTH]) hc
  exact ⟨hc, h.1, h.2.2 (by norm_num)⟩

/-- C1 counterexample: in the spec's scenario (window 800×600, right
paddle at x = 735 with width 15, ball moving with `speed_x = speed_y = 5`
and colliding with the right paddle this tick) the right-paddle collision
does fire, but the resolved ball x is not 735: the code places the ball's
left edge at `right_paddle.x - BALL_SIZE = 720`. -/
theorem right_collision_scenario_x_ne_735 :
    Paddle.check_collision (⟨false, 735, 255⟩ : Paddle) (Ball.move ⟨720, 300, 5, 5⟩) = true ∧
    (PongGame.update
      ⟨⟨true, 50, 255⟩, ⟨false, 735, 255⟩, ⟨720, 300, 5, 5⟩, 0, 0, 0, 0, 0, 0,
        GameMode.two_players, ⟨1/2, 0, 0⟩⟩ ⟨0, false, 1, 1⟩).1.ball.x ≠ 735 := by
  constructor
  · norm_num [Paddle.check_collision, Ball.move, WINDOW_H, BALL_SIZE, PADDLE_WIDTH,
      PADDLE_HEIGHT]
  · simp only [PongGame.update, PongGame.score_step, PongGame.ball_after_collisions,
      PongGame.ai_step, show (GameMode.two_players = GameMode.single) = False from by simp,
      if_false]
    norm_num [collide_left, collide_right, Paddle.check_collision, Ball.move,
      Ball.increase_speed, Ball.reset, WINDOW_W, WINDOW_H, PADDLE_WIDTH,
      PADDLE_HEIGHT, BALL_SIZE, BALL_SPEED, BALL_MAX_SPEED, SPEED_INCREMENT]

/-- C1 amended: in that same scenario, after `PongGame.update` resolves
the right-paddle collision the ball's x equals
`right_paddle.x - BALL_SIZE = 720` (flush against the paddle's inner
edge) and its horizontal velocity equals `-(5 * (1 + SPEED_INCREMENT))`,
whose magnitude is within `BALL_MAX_SPEED`. -/
theorem right_collision_scenario_resolved :
    (PongGame.update
      ⟨⟨true, 50, 255⟩, ⟨false, 735, 255⟩, ⟨720, 300, 5, 5⟩, 0, 0, 0, 0, 0, 0,
        GameMode.two_players, ⟨1/2, 0, 0⟩⟩ ⟨0, false, 1, 1⟩).1.ball.x = 735 - BALL_SIZE ∧
    (PongGame.update
      ⟨⟨true, 50, 255⟩, ⟨false, 735, 255⟩, ⟨720, 300, 5, 5⟩, 0, 0, 0, 0, 0, 0,
        GameMode.two_players, ⟨1/2, 0, 0⟩⟩ ⟨0, false, 1, 1⟩).1.ball.speed_x
      = -(5 * (1 + SPEED_INCREMENT)) ∧
    |(-(5 * (1 + SPEED_INCREMENT)) : ℚ)| ≤ BALL_MAX_SPEED := by
  refine ⟨?_, ?_, by norm_num [SPEED_INCREMENT, BALL_MAX_SPEED]⟩ <;>
    simp only [PongGame.update, PongGame.score_step, PongGame.ball_after_collisions,
      PongGame.ai_step, show (GameMode.two_players = GameMode.single) = False from by simp,
      if_false] <;>
    norm_num [collide_left, collide_right, Paddle.check_collision, Ball.move,
      Ball.increase_speed, Ball.reset, WINDOW_W, WINDOW_H, PADDLE_WIDTH,
      PADDLE_HEIGHT, BALL_SIZE, BALL_SPEED, BALL_MAX_SPEED, SPEED_INCREMENT]

/-- C4 counterexample: in single mode a below-11 point can be scored in
the same `PongGame.update` tick in which the AI moves the right paddle,
so "only the ball is reset and both paddles keep their positions" is
false for the update as a whole: here the right paddle moves from 255 to
250.1 while the right player scores a point and the ball is reset. -/
theorem scoring_tick_moves_ai_paddle :
    (PongGame.update
      ⟨⟨true, 50, 255⟩, ⟨false, 735, 255⟩, ⟨2, 300, -5, 5⟩, 0, 0, 0, 0, 0, 0,
        GameMode.single, ⟨1/2, 0, 100⟩⟩ ⟨0, false, 1, 1⟩).2 = true ∧
    (PongGame.update
      ⟨⟨true, 50, 255⟩, ⟨false, 735, 255⟩, ⟨2, 300, -5, 5⟩, 0, 0, 0, 0, 0, 0,
        GameMode.single, ⟨1/2, 0, 100⟩⟩ ⟨0, false, 1, 1⟩).1.score_right = 1 ∧
    (PongGame.update
      ⟨⟨true, 50, 255⟩, ⟨false, 735, 255⟩, ⟨2, 300, -5, 5⟩, 0, 0, 0, 0, 0, 0,
        GameMode.single, ⟨1/2, 0, 100⟩⟩ ⟨0, false, 1, 1⟩).1.ball = Ball.reset 1 1 ∧
    (PongGame.update
      ⟨⟨true, 50, 255⟩, ⟨false, 735, 255⟩, ⟨2, 300, -5, 5⟩, 0, 0, 0, 0, 0, 0,
        GameMode.single, ⟨1/2, 0, 100⟩⟩ ⟨0, false, 1, 1⟩).1.right_paddle.y ≠ 255 := by
  refine ⟨?_, ?_, ?_, ?_⟩ <;>
    simp only [PongGame.update, PongGame.score_step, PongGame.ball_after_collisions,
      PongGame.ai_step, PongAI.update, PongAI.target_after, reaction_delay,
      movement_speed_factor, Paddle.move] <;>
    norm_num [collide_left, collide_right, Paddle.check_collision, Ball.move,
      Ball.increase_speed, Ball.reset, WINDOW_W, WINDOW_H, PADDLE_WIDTH,
      PADDLE_HEIGHT, BALL_SIZE, BALL_SPEED, BALL_MAX_SPEED, SPEED_INCREMENT,
      PADDLE_SPEED]

/-- C4 amended: when a side's score reaches 11 in `PongGame.update` the
update returns `false`, increments exactly the scoring side's win counter
for the active mode (single counters when the mode is single, multi
counters otherwise), leaves the other three counters unchanged and does
not reset the ball; when a point is scored below 11 the scoring step
resets only the ball — the left paddle keeps its position and the right
paddle keeps the position the AI step of this same tick gave it (which
equals its old position except under single-mode AI movement). -/
theorem update_scoring_spec (g : PongGame) (r : RandDraws) :
    ((g.ball_after_collisions r).x ≤ 0 → 11 ≤ g.score_right + 1 →
      ((g.update r).2 = false ∧
       (g.update r).1.score_right = g.score_right + 1 ∧
       (g.update r).1.score_left = g.score_left ∧
       (g.update r).1.ball = g.ball_after_collisions r ∧
       (g.game_mode = GameMode.single →
         (g.update r).1.single_victories_right = g.single_victories_right + 1 ∧
         (g.update r).1.single_victories_left = g.single_victories_left ∧
         (g.update r).1.multi_victories_left = g.multi_victories_left ∧
         (g.update r).1.multi_victories_right = g.multi_victories_right) ∧
       (g.game_mode ≠ GameMode.single →
         (g.update r).1.multi_victories_right = g.multi_victories_right + 1 ∧
         (g.update r).1.multi_victories_left = g.multi_victories_left ∧
         (g.update r).1.single_victories_left = g.single_victories_left ∧
         (g.update r).1.single_victories_right = g.single_victories_right))) ∧
    ((g.ball_after_collisions r).x ≤ 0 → g.score_right + 1 < 11 →
      ((g.update r).2 = true ∧
       (g.update r).1.score_right = g.score_right + 1 ∧
       (g.update r).1.score_left = g.score_left ∧
       (g.update r).1.ball = Ball.reset r.rsx r.rsy ∧
       (g.update r).1.left_paddle = g.left_paddle ∧
       (g.update r).1.right_paddle = (g.ai_step g.ball.move r.aiErr r.aiDbl).2 ∧
       (g.update r).1.single_victories_left = g.single_victories_left ∧
       (g.update r).1.single_victories_right = g.single_victories_right ∧
       (g.update r).1.multi_victories_left = g.multi_victories_left ∧
       (g.update r).1.multi_victories_right = g.multi_victories_right)) ∧
    (¬ (g.ball_after_collisions r).x ≤ 0 →
      WINDOW_W - BALL_SIZE ≤ (g.ball_after_collisions r).x → 11 ≤ g.score_left + 1 →
      ((g.update r).2 = false ∧
       (g.update r).1.score_left = g.score_left + 1 ∧
       (g.update r).1.score_right = g.score_right ∧
       (g.update r).1.ball = g.ball_after_collisions r ∧
       (g.game_mode = GameMode.single →
         (g.update r).1.single_victories_left = g.single_victories_left + 1 ∧
         (g.update r).1.single_victories_right = g.single_victories_right ∧
         (g.update r).1.multi_victories_left = g.multi_victories_left ∧
         (g.update r).1.multi_victories_right = g.multi_victories_right) ∧
       (g.game_mode ≠ GameMode.single →
         (g.update r).1.multi_victories_left = g.multi_victories_left + 1 ∧
         (g.update r).1.multi_victories_right = g.multi_victories_right ∧
         (g.update r).1.single_victories_left = g.single_victories_left ∧
         (g.update r).1.single_victories_right = g.single_victories_right))) ∧
    (¬ (g.ball_after_collisions r).x ≤ 0 →
      WINDOW_W - BALL_SIZE ≤ (g.ball_after_collisions r).x → g.score_left + 1 < 11 →
      ((g.update r).2 = true ∧
       (g.update r).1.score_left = g.score_left + 1 ∧
       (g.update r).1.score_right = g.score_right ∧
       (g.update r).1.ball = Ball.reset r.rsx r.rsy ∧
       (g.update r).1.left_paddle = g.left_paddle ∧
       (g.update r).1.right_paddle = (g.ai_step g.ball.move r.aiErr r.aiDbl).2 ∧
       (g.update r).1.single_victories_left = g.single_victories_left ∧
       (g.update r).1.single_victories_right = g.single_victories_right ∧
       (g.update r).1.multi_victories_left = g.multi_victories_left ∧
       (g.update r).1.multi_victories_right = g.multi_victories_right)) := by
  unfold PongGame.update PongGame.score_step
  dsimp only
  refine ⟨?_, ?_, ?_, ?_⟩
  · intro hx hs
    rw [if_pos hx, if_pos hs]
    by_cases hm : g.game_mode = GameMode.single
    · rw [if_pos hm]
      exact ⟨rfl, rfl, rfl, rfl, fun _ => ⟨rfl, rfl, rfl, rfl⟩, fun hn => absurd hm hn⟩
    · rw [if_neg hm]
      exact ⟨rfl, rfl, rfl, rfl, fun hs2 => absurd hs2 hm, fun _ => ⟨rfl, rfl, rfl, rfl⟩⟩
  · intro hx hs
    rw [if_pos hx, if_neg (by omega : ¬ 11 ≤ g.score_right + 1)]
    exact ⟨rfl, rfl, rfl, rfl, rfl, rfl, rfl, rfl, rfl, rfl⟩
  · intro hx hx2 hs
    rw [if_neg hx, if_pos hx2, if_pos hs]
    by_cases hm : g.game_mode = GameMode.single
    · rw [if_pos hm]
      exact ⟨rfl, rfl, rfl, rfl, fun _ => ⟨rfl, rfl, rfl, rfl⟩, fun hn => absurd hm hn⟩
    · rw [if_neg hm]
      exact ⟨rfl, rfl, rfl, rfl, fun hs2 => absurd hs2 hm, fun _ => ⟨rfl, rfl, rfl, rfl⟩⟩
  · intro hx hx2 hs
    rw [if_neg hx, if_pos hx2, if_neg (by omega : ¬ 11 ≤ g.score_left + 1)]
    exact ⟨rfl, rfl, rfl, rfl, rfl, rfl, rfl, rfl, rfl, rfl⟩

/-- Witness for C4 (amended): in a two-player state with the ball exiting
left at score 0, the update continues, bumps the right score and resets
the ball. -/
theorem update_scoring_spec_witness :
    ((PongGame.ball_after_collisions
      ⟨⟨true, 50, 255⟩, ⟨false, 735, 255⟩, ⟨2, 300, -5, 5⟩, 0, 0, 0, 0, 0, 0,
        GameMode.two_players, ⟨1/2, 0, 100⟩⟩ ⟨0, false, 1, 1⟩).x ≤ 0) ∧
    (PongGame.update
      ⟨⟨true, 50, 255⟩, ⟨false, 735, 255⟩, ⟨2, 300, -5, 5⟩, 0, 0, 0, 0, 0, 0,
        GameMode.two_players, ⟨1/2, 0, 100⟩⟩ ⟨0, false, 1, 1⟩).2 = true ∧
    (PongGame.update
      ⟨⟨true, 50, 255⟩, ⟨false, 735, 255⟩, ⟨2, 300, -5, 5⟩, 0, 0, 0, 0, 0, 0,
        GameMode.two_players, ⟨1/2, 0, 100⟩⟩ ⟨0, false, 1, 1⟩).1.ball = Ball.reset 1 1 := by
  have hx : (PongGame.ball_after_collisions
      ⟨⟨true, 50, 255⟩, ⟨false, 735, 255⟩, ⟨2, 300, -5, 5⟩, 0, 0, 0, 0, 0, 0,
        GameMode.two_players, ⟨1/2, 0, 100⟩⟩ ⟨0, false, 1, 1⟩).x ≤ 0 := by
    simp only [PongGame.ball_after_collisions, PongGame.ai_step,
      show (GameMode.two_players = GameMode.single) = False from by simp, if_false]
    norm_num [collide_left, collide_right, Paddle.check_collision, Ball.move,
      Ball.increase_speed, WINDOW_W, WINDOW_H, PADDLE_WIDTH, PADDLE_HEIGHT,
      BALL_SIZE, BALL_MAX_SPEED, SPEED_INCREMENT]
  have h := (update_scoring_spec
    ⟨⟨true, 50, 255⟩, ⟨false, 735, 255⟩, ⟨2, 300, -5, 5⟩, 0, 0, 0, 0, 0, 0,
      GameMode.two_players, ⟨1/2, 0, 100⟩⟩ ⟨0, false, 1, 1⟩).2.1 hx (by norm_num)
  exact ⟨hx, h.1, h.2.2.2.1⟩
